import Mathlib

/-!
Verification of the GLiNER vector-database adapter layer
(`gliner/gliner_db/`): a shallow embedding of the two index backends
(`HNSW` over usearch, `IndexFlatIP` over faiss), the configuration
record, the backend selector (`AutoGLiNERDb`), and the entity-linking
evaluator, together with proofs of the specified observable contract.

Vectors are embedded as lists of rationals; the two wrapped native
engines are modelled from their documented add/search/save/load
contracts, with doc comments marking each such modelled collaborator.
Filesystem state is an explicit value threaded through save and load.
-/

set_option maxHeartbeats 1000000

namespace GlinerDb

/-- A stored embedding vector; the source passes numpy float arrays,
modelled as lists of rationals so that search scoring is exact. -/
abbrev Vec : Type := List ℚ

/-- Elementwise dot product, the scoring primitive of both engines. -/
def dotQ : List ℚ → List ℚ → ℚ
  | a :: as, b :: bs => a * b + dotQ as bs
  | _, _ => 0

/-- A Python dictionary key as used for the ontology mapping: the
evaluator builds integer keys in memory, while a JSON document read
from disk always yields string keys. -/
inductive PyKey where
  | int (k : Int)
  | str (s : String)
deriving DecidableEq

/-- One ontology value record; the code only ever reads its label
field (extra JSON fields are carried by neither claim nor theorem). -/
structure OntRecord where
  label : String
deriving DecidableEq

/-- Python dict lookup `o[k]` on the ontology, as an association list
searched front to back; a missing key is a KeyError, modelled as
`Option.none`. -/
def ontLookup (o : List (PyKey × OntRecord)) (k : PyKey) : Option OntRecord :=
  match o with
  | [] => Option.none
  | e :: rest => if e.1 = k then some e.2 else ontLookup rest k

/-- The string a key turns into when the ontology dict is serialized
by json.dump: integer keys become their decimal text, string keys are
kept. -/
def keyStr : PyKey → String
  | PyKey.int k => toString k
  | PyKey.str s => s

/-- The ontology document json.dump writes: every key stringified. -/
def stringifyKeys (o : List (PyKey × OntRecord)) : List (String × OntRecord) :=
  o.map (fun p => (keyStr p.1, p.2))

/-- The in-memory dict json.load yields from an ontology document: all
keys are strings. -/
def ofJsonOntology (j : List (String × OntRecord)) : List (PyKey × OntRecord) :=
  j.map (fun p => (PyKey.str p.1, p.2))

/-- Python exceptions the adapter can raise, as structured values. -/
inductive PyErr where
  | fileNotFound (path : String × String)
  | jsonDecodeError (path : String × String)
  | unsupportedMetric (metric : String)
  | unsupportedDbType (dbType : String)
  | assertionError (msg : String)
  | ioError (step : String)
deriving DecidableEq

/-! ## The two wrapped native engines -/

/-- Modelled from the usearch engine contract: a graph-based index
holding explicitly keyed entries; `Index(ndim=..., metric=...)` starts
empty, `add(keys, vectors)` appends keyed entries, and
`search(query, k)` returns the `min k count` nearest matches, best
first, with their distances. The true cosine distance is irrational
(it divides by vector norms); every theorem below depends only on the
count, the key set, and determinism of the results, never on the
relative order, so the model scores all metrics with a rational
surrogate distance. -/
structure USearchIndex where
  ndim : Nat
  metric : String
  entries : List (Int × Vec)
deriving DecidableEq

/-- Rational surrogate for the usearch per-metric distance (see
`USearchIndex`); smaller is a better match. -/
def usearchDist (_metric : String) (q v : Vec) : ℚ :=
  1 - dotQ q v

/-- Insert a scored pair into a list sorted by the comparator. -/
def insertScored (le : ℚ → ℚ → Bool) (p : Int × ℚ) : List (Int × ℚ) → List (Int × ℚ)
  | [] => [p]
  | q :: rest => if le p.2 q.2 then p :: q :: rest else q :: insertScored le p rest

/-- Insertion sort of scored pairs by the comparator; stands for the
best-first ordering both engines return results in. -/
def sortScored (le : ℚ → ℚ → Bool) : List (Int × ℚ) → List (Int × ℚ)
  | [] => []
  | p :: rest => insertScored le p (sortScored le rest)

/-- usearch `Index.add`: append keyed entries. -/
def USearchIndex.addPairs (idx : USearchIndex) (ps : List (Int × Vec)) : USearchIndex :=
  { idx with entries := idx.entries ++ ps }

/-- usearch `Index.search`: score every entry against the query, order
best first, and return at most `k` matches — never more than the
stored count and never an error. -/
def USearchIndex.search (idx : USearchIndex) (q : Vec) (k : Nat) : List (Int × ℚ) :=
  (sortScored (fun a b => decide (a ≤ b))
    (idx.entries.map (fun e => (e.1, usearchDist idx.metric q e.2)))).take k

/-- Modelled from the faiss engine contract: `IndexFlatIP(d)` is an
exact inner-product index over positionally numbered vectors;
`add(xb)` appends vectors (ids are assigned by insertion order), and
`search(q, k)` returns exactly `k` (distance, id) slots per query,
highest inner product first, padding with id `-1` and a sentinel
distance when fewer than `k` vectors are stored. -/
structure FaissIndexFlatIP where
  d : Nat
  xb : List Vec
deriving DecidableEq

/-- Sentinel distance faiss leaves in unfilled result slots (the most
negative representable float); its exact value is never relied on. -/
def faissPadDist : ℚ := -(2 ^ 128)

/-- faiss `IndexFlatIP.add`: append vectors in insertion order. -/
def FaissIndexFlatIP.add (idx : FaissIndexFlatIP) (vs : List Vec) : FaissIndexFlatIP :=
  { idx with xb := idx.xb ++ vs }

/-- Score the stored vectors against a query, labelling them with
their positional ids starting at `i`. -/
def scoreFrom (q : Vec) (i : Int) : List Vec → List (Int × ℚ)
  | [] => []
  | v :: rest => (i, dotQ q v) :: scoreFrom q (i + 1) rest

/-- faiss `IndexFlatIP.search`: the `min k count` best matches by
descending inner product, padded with `(-1, sentinel)` slots up to
exactly `k` results. -/
def FaissIndexFlatIP.search (idx : FaissIndexFlatIP) (q : Vec) (k : Nat) : List (Int × ℚ) :=
  let best := (sortScored (fun a b => decide (b ≤ a)) (scoreFrom q 0 idx.xb)).take k
  best ++ List.replicate (k - best.length) (-1, faissPadDist)

/-! ## Configuration record (`gliner_db_config.py`) -/

/-- The configuration record `GLiNERDBConfig` after construction: the
three recognized options with their defaults applied. -/
structure GLiNERDBConfig where
  db_type : String
  ndim : Nat
  metric : String
deriving DecidableEq

/-- The parsed JSON dictionary a configuration document holds. A field
is `Option.none` when the document omits it; unrecognized extras are
accepted and ignored by the constructor, so they are not carried. -/
structure ConfigDict where
  db_type : Option String
  ndim : Option Nat
  metric : Option String
  model_type : Option String
deriving DecidableEq

/-- `GLiNERDBConfig(**config_dict)`: defaults are db_type "HNSW",
ndim 768, metric "cos"; other keys (such as model_type) are ignored. -/
def GLiNERDBConfig.ofDict (d : ConfigDict) : GLiNERDBConfig :=
  { db_type := d.db_type.getD "HNSW"
    ndim := d.ndim.getD 768
    metric := d.metric.getD "cos" }

/-- `GLiNERDBConfig.to_dict`: exactly the four persisted fields. -/
def GLiNERDBConfig.to_dict (c : GLiNERDBConfig) : ConfigDict :=
  { db_type := some c.db_type
    ndim := some c.ndim
    metric := some c.metric
    model_type := some "gliner_db" }

/-! ## Filesystem model -/

/-- Content of one saved artifact. Typed parsed content stands for the
bytes on disk: a reader that expects a different kind fails to parse. -/
inductive FileContent where
  | configJson (d : ConfigDict)
  | ontologyJson (o : List (String × OntRecord))
  | usearchIndex (i : USearchIndex)
  | faissIndex (i : FaissIndexFlatIP)
deriving DecidableEq

/-- Look up a file by its (directory, filename) path, most recent
write first. -/
def lookupFile (p : String × String) :
    List ((String × String) × FileContent) → Option FileContent
  | [] => Option.none
  | e :: rest => if e.1 = p then some e.2 else lookupFile p rest

/-- The filesystem: the set of existing directories and the files,
most recently written first. `os.path.join(dir, name)` is the pair
`(dir, name)`. -/
structure FS where
  dirs : List String
  files : List ((String × String) × FileContent)

/-- An empty filesystem. -/
def FS.empty : FS := { dirs := [], files := [] }

/-- Write (or overwrite) one file. -/
def FS.write (fs : FS) (p : String × String) (c : FileContent) : FS :=
  { fs with files := (p, c) :: fs.files }

/-- Read one file; `Option.none` when `os.path.exists` is false. -/
def FS.read (fs : FS) (p : String × String) : Option FileContent :=
  lookupFile p fs.files

/-- Whether the directory exists. -/
def FS.hasDir (fs : FS) (d : String) : Bool :=
  fs.dirs.contains d

/-- Path of the configuration document inside a save directory. -/
def configPath (dir : String) : String × String := (dir, "gliner_db_config.json")

/-- Path of the ontology document inside a save directory. -/
def ontologyPath (dir : String) : String × String := (dir, "ontology.json")

/-- Path of the usearch snapshot inside a save directory. -/
def usearchPath (dir : String) : String × String := (dir, "index.usearch")

/-- Path of the faiss snapshot inside a save directory. -/
def faissPath (dir : String) : String × String := (dir, "index.faiss")

/-- Fault injection for the steps of `save_pretrained`: which of the
I/O or serialization steps raises. -/
structure SaveFaults where
  mkdirFails : Bool
  indexSaveFails : Bool
  configDumpFails : Bool
  ontologyDumpFails : Bool
deriving DecidableEq

/-- The fault-free execution. -/
def SaveFaults.noFaults : SaveFaults :=
  { mkdirFails := false, indexSaveFails := false
    configDumpFails := false, ontologyDumpFails := false }

/-! ## HNSW backend (`gliner_db.py`, class HNSW) -/

/-- The `HNSW` adapter instance: ontology plus one usearch index. -/
structure HNSW where
  ontology : List (PyKey × OntRecord)
  ndim : Nat
  metric : String
  index : USearchIndex
deriving DecidableEq

/-- `HNSW.__init__`: stores the ontology and builds a fresh
`Index(ndim=ndim, metric=metric)`. -/
def HNSW.init (ontology : List (PyKey × OntRecord)) (ndim : Nat) (metric : String) : HNSW :=
  { ontology := ontology, ndim := ndim, metric := metric
    index := { ndim := ndim, metric := metric, entries := [] } }

/-- `HNSW.add_data`: asserts equal lengths, then `index.add(keys,
vectors)`; the ontology is left untouched. -/
def HNSW.add_data (db : HNSW) (keys : List Int) (vectors : List Vec) : Except PyErr HNSW :=
  if keys.length = vectors.length then
    Except.ok { db with index := db.index.addPairs (keys.zip vectors) }
  else
    Except.error (PyErr.assertionError "Keys and vectors must have the same length")

/-- The dictionary `search` returns, with parallel ids and distances. -/
structure SearchRes where
  ids : List Int
  distances : List ℚ
deriving DecidableEq

/-- `HNSW.search`: delegate to the engine, return ids and distances. -/
def HNSW.search (db : HNSW) (q : Vec) (top_k : Nat) : SearchRes :=
  let res := db.index.search q top_k
  { ids := res.map (fun p => p.1), distances := res.map (fun p => p.2) }

/-- `HNSW.save_pretrained`, the body inside the try block: make the
directory if absent, save the index snapshot, dump the configuration
(defaulted from the instance fields when the argument is omitted),
dump the ontology with stringified keys. An error carries the
filesystem as completed so far (no rollback). -/
def HNSW.save_pretrainedBody (db : HNSW) (config : Option GLiNERDBConfig)
    (directory : String) (f : SaveFaults) (fs : FS) : Except (PyErr × FS) FS := do
  let fs1 ←
    if fs.hasDir directory then Except.ok fs
    else if f.mkdirFails then Except.error (PyErr.ioError "makedirs", fs)
    else Except.ok { fs with dirs := directory :: fs.dirs }
  let fs2 ←
    if f.indexSaveFails then Except.error (PyErr.ioError "index save", fs1)
    else Except.ok (fs1.write (usearchPath directory) (FileContent.usearchIndex db.index))
  let cfg := config.getD { db_type := "HNSW", ndim := db.ndim, metric := db.metric }
  let fs3 ←
    if f.configDumpFails then Except.error (PyErr.ioError "config dump", fs2)
    else Except.ok (fs2.write (configPath directory) (FileContent.configJson cfg.to_dict))
  if f.ontologyDumpFails then Except.error (PyErr.ioError "ontology dump", fs3)
  else Except.ok (fs3.write (ontologyPath directory)
    (FileContent.ontologyJson (stringifyKeys db.ontology)))

/-- `HNSW.save_pretrained`: the body wrapped in
except-print-and-return: every failure is reported (second component)
and the call returns normally with the filesystem as written so far. -/
def HNSW.save_pretrained (db : HNSW) (config : Option GLiNERDBConfig)
    (directory : String) (f : SaveFaults) (fs : FS) : FS × Option PyErr :=
  match db.save_pretrainedBody config directory f fs with
  | Except.ok fs2 => (fs2, Option.none)
  | Except.error (e, fs2) => (fs2, some e)

/-- `HNSW.from_pretrained`, the body inside the try block: read the
configuration (raising a not-found naming the file when absent), then
the ontology (string keys as json.load yields them), construct the
instance, then load the index snapshot into it. -/
def HNSW.from_pretrainedBody (directory : String) (fs : FS) : Except PyErr HNSW := do
  let config ←
    match fs.read (configPath directory) with
    | some (FileContent.configJson d) => Except.ok (GLiNERDBConfig.ofDict d)
    | some _ => Except.error (PyErr.jsonDecodeError (configPath directory))
    | Option.none => Except.error (PyErr.fileNotFound (configPath directory))
  let ontology ←
    match fs.read (ontologyPath directory) with
    | some (FileContent.ontologyJson o) => Except.ok (ofJsonOntology o)
    | some _ => Except.error (PyErr.jsonDecodeError (ontologyPath directory))
    | Option.none => Except.error (PyErr.fileNotFound (ontologyPath directory))
  let inst := HNSW.init ontology config.ndim config.metric
  let stored ←
    match fs.read (usearchPath directory) with
    | some (FileContent.usearchIndex i) => Except.ok i
    | some _ => Except.error (PyErr.jsonDecodeError (usearchPath directory))
    | Option.none => Except.error (PyErr.fileNotFound (usearchPath directory))
  Except.ok { inst with index := stored }

/-- `HNSW.from_pretrained`: the body wrapped in
except-print-and-return-None — any failure is swallowed and the caller
receives `Option.none` through a normal return. -/
def HNSW.from_pretrained (directory : String) (fs : FS) : Option HNSW :=
  match HNSW.from_pretrainedBody directory fs with
  | Except.ok inst => some inst
  | Except.error _ => Option.none

/-! ## IndexFlatIP backend (`gliner_db.py`, class IndexFlatIP) -/

/-- The `IndexFlatIP` adapter instance: ontology plus one faiss flat
inner-product index. -/
structure IndexFlatIP where
  ontology : List (PyKey × OntRecord)
  ndim : Nat
  metric : String
  index : FaissIndexFlatIP
deriving DecidableEq

/-- `IndexFlatIP.__init__`: builds `faiss.IndexFlatIP(ndim)` when the
metric is "dotprod", otherwise raises ValueError before any data can
be added. -/
def IndexFlatIP.init (ontology : List (PyKey × OntRecord)) (ndim : Nat)
    (metric : String) : Except PyErr IndexFlatIP :=
  if metric = "dotprod" then
    Except.ok { ontology := ontology, ndim := ndim, metric := metric
                index := { d := ndim, xb := [] } }
  else
    Except.error (PyErr.unsupportedMetric metric)

/-- `IndexFlatIP.add_data`: asserts equal lengths, then
`index.add(vectors)` — the keys argument is never passed to the
engine, which numbers vectors by insertion order. -/
def IndexFlatIP.add_data (db : IndexFlatIP) (keys : List Int)
    (vectors : List Vec) : Except PyErr IndexFlatIP :=
  if keys.length = vectors.length then
    Except.ok { db with index := db.index.add vectors }
  else
    Except.error (PyErr.assertionError "Keys and vectors must have the same length")

/-- `IndexFlatIP.search`: delegate to the engine (the query is
expanded to a one-row batch and row 0 of the result taken, which the
model collapses), returning ids and distances. -/
def IndexFlatIP.search (db : IndexFlatIP) (q : Vec) (top_k : Nat) : SearchRes :=
  let res := db.index.search q top_k
  { ids := res.map (fun p => p.1), distances := res.map (fun p => p.2) }

/-- `IndexFlatIP.save_pretrained`, the body inside the try block;
identical to the HNSW one except for the snapshot name and the
default db_type tag "HNSWfaiss". -/
def IndexFlatIP.save_pretrainedBody (db : IndexFlatIP) (config : Option GLiNERDBConfig)
    (directory : String) (f : SaveFaults) (fs : FS) : Except (PyErr × FS) FS := do
  let fs1 ←
    if fs.hasDir directory then Except.ok fs
    else if f.mkdirFails then Except.error (PyErr.ioError "makedirs", fs)
    else Except.ok { fs with dirs := directory :: fs.dirs }
  let fs2 ←
    if f.indexSaveFails then Except.error (PyErr.ioError "index save", fs1)
    else Except.ok (fs1.write (faissPath directory) (FileContent.faissIndex db.index))
  let cfg := config.getD { db_type := "HNSWfaiss", ndim := db.ndim, metric := db.metric }
  let fs3 ←
    if f.configDumpFails then Except.error (PyErr.ioError "config dump", fs2)
    else Except.ok (fs2.write (configPath directory) (FileContent.configJson cfg.to_dict))
  if f.ontologyDumpFails then Except.error (PyErr.ioError "ontology dump", fs3)
  else Except.ok (fs3.write (ontologyPath directory)
    (FileContent.ontologyJson (stringifyKeys db.ontology)))

/-- `IndexFlatIP.save_pretrained`: except-print-and-return wrapper. -/
def IndexFlatIP.save_pretrained (db : IndexFlatIP) (config : Option GLiNERDBConfig)
    (directory : String) (f : SaveFaults) (fs : FS) : FS × Option PyErr :=
  match db.save_pretrainedBody config directory f fs with
  | Except.ok fs2 => (fs2, Option.none)
  | Except.error (e, fs2) => (fs2, some e)

/-- `IndexFlatIP.from_pretrained`, the body inside the try block:
configuration, then ontology, then instance construction (which can
raise ValueError on a non-dotprod metric), then the index snapshot. -/
def IndexFlatIP.from_pretrainedBody (directory : String) (fs : FS) :
    Except PyErr IndexFlatIP := do
  let config ←
    match fs.read (configPath directory) with
    | some (FileContent.configJson d) => Except.ok (GLiNERDBConfig.ofDict d)
    | some _ => Except.error (PyErr.jsonDecodeError (configPath directory))
    | Option.none => Except.error (PyErr.fileNotFound (configPath directory))
  let ontology ←
    match fs.read (ontologyPath directory) with
    | some (FileContent.ontologyJson o) => Except.ok (ofJsonOntology o)
    | some _ => Except.error (PyErr.jsonDecodeError (ontologyPath directory))
    | Option.none => Except.error (PyErr.fileNotFound (ontologyPath directory))
  let inst ← IndexFlatIP.init ontology config.ndim config.metric
  let stored ←
    match fs.read (faissPath directory) with
    | some (FileContent.faissIndex i) => Except.ok i
    | some _ => Except.error (PyErr.jsonDecodeError (faissPath directory))
    | Option.none => Except.error (PyErr.fileNotFound (faissPath directory))
  Except.ok { inst with index := stored }

/-- `IndexFlatIP.from_pretrained`: except-print-and-return-None
wrapper — any failure is swallowed and the caller receives
`Option.none` through a normal return. -/
def IndexFlatIP.from_pretrained (directory : String) (fs : FS) : Option IndexFlatIP :=
  match IndexFlatIP.from_pretrainedBody directory fs with
  | Except.ok inst => some inst
  | Except.error _ => Option.none

/-! ## Backend selector (`auto_gliner_db.py`) -/

/-- The class names module `gliner_db.py` defines at top level. -/
def glinerDbModuleClasses : List String :=
  ["BaseVectorDb", "HNSW", "IndexFlatIP"]

/-- The names `auto_gliner_db.py` line 5 imports from that module. -/
def autoGlinerDbImportedNames : List String :=
  ["BaseVectorDb", "HNSW", "HNSWfaiss"]

/-- Whether the module-level import of `auto_gliner_db.py` resolves:
every imported name must be defined by `gliner_db.py`. -/
def autoGlinerDbImportSucceeds : Bool :=
  autoGlinerDbImportedNames.all (fun n => glinerDbModuleClasses.contains n)

/-- The load operation `AutoGLiNERDb.from_pretrained` dispatches to. -/
inductive DbLoadTarget where
  | hnsw
  | hnswfaiss
deriving DecidableEq

/-- The class name each dispatch target refers to in the source. -/
def DbLoadTarget.className : DbLoadTarget → String
  | DbLoadTarget.hnsw => "HNSW"
  | DbLoadTarget.hnswfaiss => "HNSWfaiss"

/-- The dispatch at the end of `AutoGLiNERDb.from_pretrained`: "HNSW"
and "HNSWfaiss" pick their load operation, anything else raises
ValueError (unsupported database type). -/
def AutoGLiNERDb.dispatch (db_type : String) : Except PyErr DbLoadTarget :=
  if db_type = "HNSW" then Except.ok DbLoadTarget.hnsw
  else if db_type = "HNSWfaiss" then Except.ok DbLoadTarget.hnswfaiss
  else Except.error (PyErr.unsupportedDbType db_type)

/-- The selector steps before the dispatch: require the configuration
document to exist in the resolved directory (FileNotFoundError
otherwise), parse it, and take the db_type attribute — which the
configuration constructor has already defaulted to "HNSW". -/
def AutoGLiNERDb.resolveDbType (model_dir : String) (fs : FS) : Except PyErr String :=
  match fs.read (configPath model_dir) with
  | some (FileContent.configJson d) => Except.ok (GLiNERDBConfig.ofDict d).db_type
  | some _ => Except.error (PyErr.jsonDecodeError (configPath model_dir))
  | Option.none => Except.error (PyErr.fileNotFound (configPath model_dir))

/-! ## Evaluator (`evaluate.py`) -/

/-- One gold entity span as the evaluator consumes it: the span-level
representation the model produced for it, and the gold label. The
encoding model is an external collaborator, so the embedding is data
here. -/
structure GoldSpan where
  emb : Vec
  gold : String
deriving DecidableEq

/-- One dataset example: its list of gold entity spans. -/
structure EvalExample where
  spans : List GoldSpan

/-- The database as the evaluator uses it, duck-typed: the ontology
dict and the ids component of a search. -/
structure EvalDb where
  ontology : List (PyKey × OntRecord)
  searchIds : Vec → Nat → List Int

/-- Monadic map over `Option`, failing when any element fails; stands
for a Python loop that can raise at any iteration. -/
def mapOption (f : α → Option β) : List α → Option (List β)
  | [] => some []
  | x :: xs =>
    match f x, mapOption f xs with
    | some y, some ys => some (y :: ys)
    | _, _ => Option.none

/-- The inner scoring loop of `evaluate_in_context` for one span:
iterate i over range(top_k); look the i-th returned id up in the
ontology under its str() form (IndexError past the end of ids,
KeyError on a missing key — both `Option.none`); score 1 and stop at
the first label match, 0 when the range is exhausted. -/
def spanHitLoop (ont : List (PyKey × OntRecord)) (gold : String) :
    Nat → List Int → Option Nat
  | 0, _ => some 0
  | _ + 1, [] => Option.none
  | rem + 1, id :: rest =>
    match ontLookup ont (PyKey.str (toString id)) with
    | Option.none => Option.none
    | some r => if r.label = gold then some 1 else spanHitLoop ont gold rem rest

/-- Score of one span given the ids `search` returned. -/
def spanHit (ont : List (PyKey × OntRecord)) (ids : List Int) (gold : String)
    (top_k : Nat) : Option Nat :=
  spanHitLoop ont gold top_k ids

/-- The labels of the first `top_k` returned ids under the str-keyed
ontology lookup, when all of them resolve. -/
def idsLabels (ont : List (PyKey × OntRecord)) (ids : List Int) (top_k : Nat) :
    Option (List String) :=
  mapOption (fun id => (ontLookup ont (PyKey.str (toString id))).map OntRecord.label)
    (ids.take top_k)

/-- Scores of all spans of one example: search the database with each
span representation and score the hit. -/
def exampleScores (db : EvalDb) (top_k : Nat) (ex : EvalExample) : Option (List Nat) :=
  mapOption (fun sp => spanHit db.ontology (db.searchIds sp.emb top_k) sp.gold top_k)
    ex.spans

/-- `EntityLinkingEvaluator.evaluate_in_context`: collect the per-span
hit scores over the whole dataset (the n_examples parameter of the
source is never read, so it is not modelled), then return
`sum(scores) / len(scores) if scores else 0`. -/
def evaluate_in_context (db : EvalDb) (data : List EvalExample) (top_k : Nat) :
    Option ℚ :=
  (mapOption (exampleScores db top_k) data).map (fun ss =>
    let scores := ss.flatten
    if scores = [] then 0
    else ((Nat.cast scores.sum : ℚ) / (Nat.cast scores.length : ℚ)))

/-- The self-referential ontology `EntityLinkingEvaluator.__init__`
builds in memory: dense integer keys in enumeration order. -/
def evaluatorOntology (labels : List String) : List (PyKey × OntRecord) :=
  labels.enum.map (fun p => (PyKey.int (p.1 : Int), { label := p.2 }))

/-! ## Helper lemmas about the engine models -/

theorem length_insertScored (le : ℚ → ℚ → Bool) (p : Int × ℚ) (l : List (Int × ℚ)) :
    (insertScored le p l).length = l.length + 1 := by
  induction l with
  | nil => rfl
  | cons q rest ih =>
    simp only [insertScored]
    split
    · simp
    · simp [ih]

theorem length_sortScored (le : ℚ → ℚ → Bool) (l : List (Int × ℚ)) :
    (sortScored le l).length = l.length := by
  induction l with
  | nil => rfl
  | cons p rest ih => simp [sortScored, length_insertScored, ih]

theorem mem_insertScored {le : ℚ → ℚ → Bool} {p x : Int × ℚ} {l : List (Int × ℚ)} :
    x ∈ insertScored le p l → x = p ∨ x ∈ l := by
  induction l with
  | nil =>
    intro h
    simpa [insertScored] using h
  | cons q rest ih =>
    simp only [insertScored]
    split
    · intro h
      rcases List.mem_cons.mp h with h | h
      · exact Or.inl h
      · exact Or.inr h
    · intro h
      rcases List.mem_cons.mp h with h | h
      · exact Or.inr (by simp [h])
      · rcases ih h with h | h
        · exact Or.inl h
        · exact Or.inr (by simp [h])

theorem mem_sortScored {le : ℚ → ℚ → Bool} {x : Int × ℚ} {l : List (Int × ℚ)}
    (h : x ∈ sortScored le l) : x ∈ l := by
  induction l with
  | nil => simp [sortScored] at h
  | cons p rest ih =>
    simp only [sortScored] at h
    rcases mem_insertScored h with h | h
    · simp [h]
    · exact List.mem_cons_of_mem _ (ih h)

theorem length_scoreFrom (q : Vec) (i : Int) (l : List Vec) :
    (scoreFrom q i l).length = l.length := by
  induction l generalizing i with
  | nil => rfl
  | cons v rest ih => simp [scoreFrom, ih]

theorem mem_scoreFrom {q : Vec} {x : Int × ℚ} {l : List Vec} {i : Int}
    (h : x ∈ scoreFrom q i l) : i ≤ x.1 ∧ x.1 < i + l.length := by
  induction l generalizing i with
  | nil => simp [scoreFrom] at h
  | cons v rest ih =>
    simp only [scoreFrom, List.mem_cons] at h
    rcases h with h | h
    · subst h
      constructor
      · exact le_refl i
      · simp only [List.length_cons]
        omega
    · rcases ih h with ⟨h1, h2⟩
      constructor
      · omega
      · simp only [List.length_cons]
        omega

/-- The result count of the usearch engine search. -/
theorem length_usearch_search (idx : USearchIndex) (q : Vec) (k : Nat) :
    (idx.search q k).length = min k idx.entries.length := by
  simp [USearchIndex.search, length_sortScored]

/-- The result count of the faiss engine search: always exactly k. -/
theorem length_faiss_search (idx : FaissIndexFlatIP) (q : Vec) (k : Nat) :
    (idx.search q k).length = k := by
  simp only [FaissIndexFlatIP.search, List.length_append, List.length_take,
    length_sortScored, length_scoreFrom, List.length_replicate]
  omega

/-! ## Helper lemmas about the filesystem and persistence -/

theorem FS.read_write_self (fs : FS) (p : String × String) (c : FileContent) :
    (fs.write p c).read p = some c := by
  simp [FS.write, FS.read, lookupFile]

theorem FS.read_write_ne (fs : FS) (p q : String × String) (c : FileContent)
    (h : p ≠ q) : (fs.write p c).read q = fs.read q := by
  simp [FS.write, FS.read, lookupFile, h]

/-- The fault-free save of an HNSW instance: returns normally with no
error and the filesystem extended by exactly the three artifacts. -/
theorem hnsw_save_noFaults (db : HNSW) (cfg : Option GLiNERDBConfig)
    (dir : String) (fs : FS) :
    db.save_pretrained cfg dir SaveFaults.noFaults fs =
      ({ dirs := if fs.hasDir dir then fs.dirs else dir :: fs.dirs
         files :=
           (ontologyPath dir, FileContent.ontologyJson (stringifyKeys db.ontology)) ::
           (configPath dir, FileContent.configJson
             ((cfg.getD { db_type := "HNSW", ndim := db.ndim, metric := db.metric }).to_dict)) ::
           (usearchPath dir, FileContent.usearchIndex db.index) :: fs.files },
       Option.none) := by
  unfold HNSW.save_pretrained HNSW.save_pretrainedBody
  by_cases h : fs.hasDir dir <;>
    simp [h, SaveFaults.noFaults, FS.write, Bind.bind, Except.bind]

/-- The fault-free save of an IndexFlatIP instance. -/
theorem flat_save_noFaults (db : IndexFlatIP) (cfg : Option GLiNERDBConfig)
    (dir : String) (fs : FS) :
    db.save_pretrained cfg dir SaveFaults.noFaults fs =
      ({ dirs := if fs.hasDir dir then fs.dirs else dir :: fs.dirs
         files :=
           (ontologyPath dir, FileContent.ontologyJson (stringifyKeys db.ontology)) ::
           (configPath dir, FileContent.configJson
             ((cfg.getD { db_type := "HNSWfaiss", ndim := db.ndim, metric := db.metric }).to_dict)) ::
           (faissPath dir, FileContent.faissIndex db.index) :: fs.files },
       Option.none) := by
  unfold IndexFlatIP.save_pretrained IndexFlatIP.save_pretrainedBody
  by_cases h : fs.hasDir dir <;>
    simp [h, SaveFaults.noFaults, FS.write, Bind.bind, Except.bind]

/-- Loading right after a fault-free save restores an HNSW backend
with the identical index and with the ontology keys stringified. -/
theorem hnsw_roundtrip (db : HNSW) (dir : String) (fs : FS) :
    HNSW.from_pretrained dir (db.save_pretrained Option.none dir SaveFaults.noFaults fs).1 =
      some { ontology := ofJsonOntology (stringifyKeys db.ontology)
             ndim := db.ndim, metric := db.metric, index := db.index } := by
  rw [hnsw_save_noFaults]
  unfold HNSW.from_pretrained HNSW.from_pretrainedBody
  simp [FS.read, lookupFile, configPath, ontologyPath, usearchPath,
    GLiNERDBConfig.ofDict, GLiNERDBConfig.to_dict, HNSW.init,
    Bind.bind, Except.bind]

/-- Loading right after a fault-free save restores an IndexFlatIP
backend with the identical index and stringified ontology keys,
provided the instance was built with the supported metric (the only
way the adapter constructor allows). -/
theorem flat_roundtrip (db : IndexFlatIP) (dir : String) (fs : FS)
    (hm : db.metric = "dotprod") :
    IndexFlatIP.from_pretrained dir
        (db.save_pretrained Option.none dir SaveFaults.noFaults fs).1 =
      some { ontology := ofJsonOntology (stringifyKeys db.ontology)
             ndim := db.ndim, metric := db.metric, index := db.index } := by
  rw [flat_save_noFaults]
  unfold IndexFlatIP.from_pretrained IndexFlatIP.from_pretrainedBody
  simp [FS.read, lookupFile, configPath, ontologyPath, faissPath,
    GLiNERDBConfig.ofDict, GLiNERDBConfig.to_dict, IndexFlatIP.init, hm,
    Bind.bind, Except.bind]

/-! ## Concrete instances used by counterexamples and witnesses -/

/-- The flat backend as `IndexFlatIP.__init__` yields it for
dimension 1 with an empty ontology. -/
def exFlat0 : IndexFlatIP :=
  { ontology := [], ndim := 1, metric := "dotprod", index := { d := 1, xb := [] } }

/-- `exFlat0` after adding the single vector `[1]` under key 0. -/
def exFlat1 : IndexFlatIP :=
  { ontology := [], ndim := 1, metric := "dotprod", index := { d := 1, xb := [[1]] } }

/-- A one-entry HNSW backend whose ontology covers its only key. -/
def exHNSW : HNSW :=
  { ontology := [(PyKey.str "7", { label := "L" })], ndim := 1, metric := "cos"
    index := { ndim := 1, metric := "cos", entries := [(7, [1])] } }

/-! ## Claim theorems -/

/-- C1: the selector is meant to read db_type (default "HNSW"),
dispatch "HNSW" to `HNSW.from_pretrained` and "HNSWfaiss" to the
flat-index variant, and reject anything else — but the module-level
name import of `auto_gliner_db.py` names the class `HNSWfaiss`, which
`gliner_db.py` does not define (the flat-index class is named
`IndexFlatIP`), so the module cannot even be imported: the dispatch
the claim describes is unreachable. -/
theorem claim_C1 :
    autoGlinerDbImportSucceeds = false
    ∧ DbLoadTarget.className DbLoadTarget.hnswfaiss ∉ glinerDbModuleClasses
    ∧ "IndexFlatIP" ∈ glinerDbModuleClasses
    ∧ AutoGLiNERDb.dispatch "HNSW" = Except.ok DbLoadTarget.hnsw
    ∧ AutoGLiNERDb.dispatch "HNSWfaiss" = Except.ok DbLoadTarget.hnswfaiss
    ∧ AutoGLiNERDb.dispatch "FLAT" = Except.error (PyErr.unsupportedDbType "FLAT")
    ∧ (GLiNERDBConfig.ofDict
        { db_type := Option.none, ndim := Option.none
          metric := Option.none, model_type := Option.none }).db_type = "HNSW" := by
  exact ⟨by decide, by decide, by decide, rfl, rfl, rfl, rfl⟩

/-- C2 counterexample: on a directory missing all three artifacts,
both variants raise a not-found internally but swallow it and RETURN
NORMALLY with None — the claim that the failure reaches the caller is
false. -/
theorem claim_C2_counterexample :
    HNSW.from_pretrainedBody "d" FS.empty
      = Except.error (PyErr.fileNotFound ("d", "gliner_db_config.json"))
    ∧ HNSW.from_pretrained "d" FS.empty = Option.none
    ∧ IndexFlatIP.from_pretrainedBody "d" FS.empty
      = Except.error (PyErr.fileNotFound ("d", "gliner_db_config.json"))
    ∧ IndexFlatIP.from_pretrained "d" FS.empty = Option.none := by
  exact ⟨rfl, rfl, rfl, rfl⟩

/-- C2 amended: when any of the three artifacts is missing, each
variant raises a FileNotFoundError naming the first missing file in
check order (configuration, then ontology, then index — the flat
variant reaches the index check only with a supported metric), but the
try/except wrapper swallows it, so the caller receives None through a
normal return instead of the failure. -/
theorem claim_C2_amended : ∀ (dir : String) (fs : FS),
    (fs.read (configPath dir) = Option.none →
      HNSW.from_pretrainedBody dir fs = Except.error (PyErr.fileNotFound (configPath dir))
      ∧ HNSW.from_pretrained dir fs = Option.none
      ∧ IndexFlatIP.from_pretrainedBody dir fs
          = Except.error (PyErr.fileNotFound (configPath dir))
      ∧ IndexFlatIP.from_pretrained dir fs = Option.none)
    ∧ (∀ d : ConfigDict, fs.read (configPath dir) = some (FileContent.configJson d) →
        fs.read (ontologyPath dir) = Option.none →
        HNSW.from_pretrainedBody dir fs = Except.error (PyErr.fileNotFound (ontologyPath dir))
        ∧ HNSW.from_pretrained dir fs = Option.none
        ∧ IndexFlatIP.from_pretrainedBody dir fs
            = Except.error (PyErr.fileNotFound (ontologyPath dir))
        ∧ IndexFlatIP.from_pretrained dir fs = Option.none)
    ∧ (∀ (d : ConfigDict) (o : List (String × OntRecord)),
        fs.read (configPath dir) = some (FileContent.configJson d) →
        fs.read (ontologyPath dir) = some (FileContent.ontologyJson o) →
        (fs.read (usearchPath dir) = Option.none →
          HNSW.from_pretrainedBody dir fs
            = Except.error (PyErr.fileNotFound (usearchPath dir))
          ∧ HNSW.from_pretrained dir fs = Option.none)
        ∧ ((GLiNERDBConfig.ofDict d).metric = "dotprod" →
            fs.read (faissPath dir) = Option.none →
            IndexFlatIP.from_pretrainedBody dir fs
              = Except.error (PyErr.fileNotFound (faissPath dir))
            ∧ IndexFlatIP.from_pretrained dir fs = Option.none)) := by
  intro dir fs
  refine ⟨?_, ?_, ?_⟩
  · intro h
    refine ⟨?_, ?_, ?_, ?_⟩ <;>
      simp [HNSW.from_pretrainedBody, HNSW.from_pretrained,
        IndexFlatIP.from_pretrainedBody, IndexFlatIP.from_pretrained, h,
        Bind.bind, Except.bind]
  · intro d hc ho
    refine ⟨?_, ?_, ?_, ?_⟩ <;>
      simp [HNSW.from_pretrainedBody, HNSW.from_pretrained,
        IndexFlatIP.from_pretrainedBody, IndexFlatIP.from_pretrained, hc, ho,
        Bind.bind, Except.bind]
  · intro d o hc ho
    constructor
    · intro hu
      refine ⟨?_, ?_⟩ <;>
        simp [HNSW.from_pretrainedBody, HNSW.from_pretrained, hc, ho, hu,
          Bind.bind, Except.bind]
    · intro hm hf
      refine ⟨?_, ?_⟩ <;>
        simp [IndexFlatIP.from_pretrainedBody, IndexFlatIP.from_pretrained,
          IndexFlatIP.init, hc, ho, hf, hm, Bind.bind, Except.bind]

/-- C2 witness: the amended claim applied to the empty directory. -/
theorem claim_C2_witness :
    FS.empty.read (configPath "d") = Option.none
    ∧ HNSW.from_pretrainedBody "d" FS.empty
        = Except.error (PyErr.fileNotFound (configPath "d"))
    ∧ HNSW.from_pretrained "d" FS.empty = Option.none
    ∧ IndexFlatIP.from_pretrainedBody "d" FS.empty
        = Except.error (PyErr.fileNotFound (configPath "d"))
    ∧ IndexFlatIP.from_pretrained "d" FS.empty = Option.none := by
  have h : FS.empty.read (configPath "d") = Option.none := rfl
  have hc := (claim_C2_amended "d" FS.empty).1 h
  exact ⟨h, hc.1, hc.2.1, hc.2.2.1, hc.2.2.2⟩

/-- C6: constructing the flat-index variant with any metric other
than "dotprod" raises the unsupported-metric configuration error from
the constructor itself, before any data can be added; with "dotprod"
construction succeeds with an empty index. -/
theorem claim_C6 : ∀ (ont : List (PyKey × OntRecord)) (ndim : Nat) (metric : String),
    (metric ≠ "dotprod" →
      IndexFlatIP.init ont ndim metric = Except.error (PyErr.unsupportedMetric metric))
    ∧ IndexFlatIP.init ont ndim "dotprod" =
        Except.ok { ontology := ont, ndim := ndim, metric := "dotprod"
                    index := { d := ndim, xb := [] } } := by
  intro ont ndim metric
  constructor
  · intro h
    simp [IndexFlatIP.init, h]
  · simp [IndexFlatIP.init]

/-- C6 witness: the metric guard at the concrete metric "cos". -/
theorem claim_C6_witness :
    IndexFlatIP.init [] 1 "cos" = Except.error (PyErr.unsupportedMetric "cos")
    ∧ IndexFlatIP.init [] 1 "dotprod" = Except.ok exFlat0 := by
  exact ⟨(claim_C6 [] 1 "cos").1 (by decide), (claim_C6 [] 1 "dotprod").2⟩

/-- C7: for the flat-index variant the keys argument of add_data has
no influence beyond the length assertion — two same-length key arrays
yield the very same backend, hence identical search ids and distances
for every query. -/
theorem claim_C7 : ∀ (db : IndexFlatIP) (keys1 keys2 : List Int) (vectors : List Vec),
    keys1.length = vectors.length → keys2.length = vectors.length →
    db.add_data keys1 vectors = db.add_data keys2 vectors
    ∧ (∀ db1 db2 : IndexFlatIP, db.add_data keys1 vectors = Except.ok db1 →
        db.add_data keys2 vectors = Except.ok db2 →
        ∀ (q : Vec) (k : Nat), db1.search q k = db2.search q k) := by
  intro db k1 k2 vs h1 h2
  have he : db.add_data k1 vs = db.add_data k2 vs := by
    simp [IndexFlatIP.add_data, h1, h2]
  refine ⟨he, ?_⟩
  intro db1 db2 e1 e2 q k
  rw [he] at e1
  rw [e1] at e2
  injection e2 with h3
  rw [h3]

/-- C7 witness: two different key arrays over the same single vector
produce the same backend and the same search result. -/
theorem claim_C7_witness :
    exFlat0.add_data [5] [[1]] = exFlat0.add_data [9] [[1]]
    ∧ exFlat0.add_data [5] [[1]] = Except.ok exFlat1
    ∧ exFlat1.search [1] 1 = exFlat1.search [1] 1 := by
  have h := claim_C7 exFlat0 [5] [9] [[1]] (by decide) (by decide)
  have hok : exFlat0.add_data [5] [[1]] = Except.ok exFlat1 := rfl
  exact ⟨h.1, hok, h.2 exFlat1 exFlat1 hok (h.1.symm.trans hok) [1] 1⟩

/-- C3 counterexample: a flat backend holding one vector, queried
with k = 2, returns TWO pairs — the second a padded (-1) entry — not
the one stored result the claim promises for both variants. -/
theorem claim_C3_counterexample :
    IndexFlatIP.init [] 1 "dotprod" = Except.ok exFlat0
    ∧ exFlat0.add_data [0] [[1]] = Except.ok exFlat1
    ∧ exFlat1.index.xb.length = 1
    ∧ (exFlat1.search [1] 2).ids.length = 2
    ∧ (exFlat1.search [1] 2).ids = [0, -1] := by
  exact ⟨rfl, rfl, rfl, by decide, by decide⟩

/-- C3 amended: neither search can error, and the usearch variant
returns exactly min(k, n) pairs — so exactly n when k exceeds n — but
the flat variant always returns exactly k pairs, the slots beyond the
n stored vectors padded with id -1 rather than omitted. -/
theorem claim_C3_amended :
    (∀ (db : HNSW) (q : Vec) (k : Nat),
      (db.search q k).ids.length = min k db.index.entries.length)
    ∧ (∀ (db : HNSW) (q : Vec) (k : Nat), db.index.entries.length < k →
        (db.search q k).ids.length = db.index.entries.length)
    ∧ (∀ (db : IndexFlatIP) (q : Vec) (k : Nat),
        (db.search q k).ids.length = k)
    ∧ (∀ (db : IndexFlatIP) (q : Vec) (k : Nat),
        (db.search q k).ids.drop (min k db.index.xb.length)
          = List.replicate (k - db.index.xb.length) (-1)) := by
  refine ⟨?_, ?_, ?_, ?_⟩
  · intro db q k
    simp [HNSW.search, length_usearch_search]
  · intro db q k h
    simp [HNSW.search, length_usearch_search]
    omega
  · intro db q k
    simp [IndexFlatIP.search, length_faiss_search]
  · intro db q k
    show (List.map _ (FaissIndexFlatIP.search db.index q k)).drop _ = _
    unfold FaissIndexFlatIP.search
    have hlen :
        (((sortScored (fun a b => decide (b ≤ a)) (scoreFrom q 0 db.index.xb)).take k).map
          (fun p : Int × ℚ => p.1)).length = min k db.index.xb.length := by
      simp [length_sortScored, length_scoreFrom]
    rw [List.map_append, ← hlen, List.drop_left, List.map_replicate]
    have hcount :
        k - ((sortScored (fun a b => decide (b ≤ a)) (scoreFrom q 0 db.index.xb)).take k).length
          = k - db.index.xb.length := by
      simp only [List.length_take, length_sortScored, length_scoreFrom]
      omega
    rw [hcount]

/-- C3 witness: the amended claim at concrete backends — one stored
vector in each variant, k larger than the stored count. -/
theorem claim_C3_witness :
    (exHNSW.search [1] 5).ids.length = min 5 1
    ∧ exHNSW.index.entries.length < 5
    ∧ (exHNSW.search [1] 5).ids.length = 1
    ∧ (exFlat1.search [1] 3).ids.length = 3
    ∧ (exFlat1.search [1] 3).ids.drop (min 3 1) = List.replicate (3 - 1) (-1) := by
  have h := claim_C3_amended
  have hlt : exHNSW.index.entries.length < 5 := by decide
  exact ⟨h.1 exHNSW [1] 5, hlt, h.2.1 exHNSW [1] 5 hlt,
    h.2.2.1 exFlat1 [1] 3, h.2.2.2 exFlat1 [1] 3⟩

/-- C4 counterexample: a flat backend constructed through the public
constructor with an empty ontology and one added vector returns id 0
from search, but the str-keyed lookup the Evaluator performs on that
ontology finds nothing — ontology completeness is not an invariant
the backends maintain. -/
theorem claim_C4_counterexample :
    IndexFlatIP.init [] 1 "dotprod" = Except.ok exFlat0
    ∧ exFlat0.add_data [0] [[1]] = Except.ok exFlat1
    ∧ (exFlat1.search [1] 1).ids = [0]
    ∧ ontLookup exFlat1.ontology (PyKey.str (toString (0 : Int))) = Option.none := by
  exact ⟨rfl, rfl, by decide, rfl⟩

/-- C4 amended: search ids are always drawn from the index contents —
the usearch variant returns only keys previously added, and the flat
variant (with k at most the stored count) only positions 0..n-1 — and
every returned id resolves under the str-keyed ontology lookup
provided the caller supplied an ontology covering those ids; the
backends themselves never update the ontology, so the coverage is a
caller obligation, not an invariant. -/
theorem claim_C4_amended :
    (∀ (db : HNSW) (q : Vec) (k : Nat) (id : Int),
      id ∈ (db.search q k).ids → ∃ v, (id, v) ∈ db.index.entries)
    ∧ (∀ (db : HNSW) (q : Vec) (k : Nat) (id : Int),
        (∀ e ∈ db.index.entries,
          (ontLookup db.ontology (PyKey.str (toString e.1))).isSome) →
        id ∈ (db.search q k).ids →
        (ontLookup db.ontology (PyKey.str (toString id))).isSome)
    ∧ (∀ (db : IndexFlatIP) (q : Vec) (k : Nat) (id : Int),
        k ≤ db.index.xb.length →
        id ∈ (db.search q k).ids → 0 ≤ id ∧ id < db.index.xb.length)
    ∧ (∀ (db : IndexFlatIP) (q : Vec) (k : Nat) (id : Int),
        k ≤ db.index.xb.length →
        (∀ i : Nat, i < db.index.xb.length →
          (ontLookup db.ontology (PyKey.str (toString (i : Int)))).isSome) →
        id ∈ (db.search q k).ids →
        (ontLookup db.ontology (PyKey.str (toString id))).isSome) := by
  have hnswIds : ∀ (db : HNSW) (q : Vec) (k : Nat) (id : Int),
      id ∈ (db.search q k).ids → ∃ v, (id, v) ∈ db.index.entries := by
    intro db q k id hid
    simp only [HNSW.search, List.mem_map] at hid
    obtain ⟨p, hp, hp1⟩ := hid
    have hps : p ∈ sortScored (fun a b => decide (a ≤ b))
        (db.index.entries.map (fun e => (e.1, usearchDist db.index.metric q e.2))) :=
      List.take_subset _ _ hp
    have hpm := mem_sortScored hps
    simp only [List.mem_map] at hpm
    obtain ⟨e, he, hep⟩ := hpm
    refine ⟨e.2, ?_⟩
    have h1 : e.1 = id := by
      rw [← hp1, ← hep]
    rw [← h1]
    simpa using he
  have flatIds : ∀ (db : IndexFlatIP) (q : Vec) (k : Nat) (id : Int),
      k ≤ db.index.xb.length →
      id ∈ (db.search q k).ids → 0 ≤ id ∧ id < db.index.xb.length := by
    intro db q k id hk hid
    simp only [IndexFlatIP.search, List.mem_map] at hid
    obtain ⟨p, hp, hp1⟩ := hid
    simp only [FaissIndexFlatIP.search] at hp
    have hempty :
        k - ((sortScored (fun a b => decide (b ≤ a)) (scoreFrom q 0 db.index.xb)).take k).length
          = 0 := by
      simp only [List.length_take, length_sortScored, length_scoreFrom]
      omega
    rw [hempty] at hp
    simp only [List.replicate_zero, List.append_nil] at hp
    have hps := List.take_subset _ _ hp
    have hpm := mem_sortScored hps
    have hb := mem_scoreFrom hpm
    rw [hp1] at hb
    have h2 := hb.2
    have h1 := hb.1
    simp only [List.length_take, length_sortScored, length_scoreFrom] at h2
    constructor
    · exact h1
    · omega
  refine ⟨hnswIds, ?_, flatIds, ?_⟩
  · intro db q k id hcov hid
    obtain ⟨v, hv⟩ := hnswIds db q k id hid
    exact hcov (id, v) hv
  · intro db q k id hk hcov hid
    obtain ⟨h0, hn⟩ := flatIds db q k id hk hid
    have hnat : ((id.toNat : Int)) = id := Int.toNat_of_nonneg h0
    have hlt : id.toNat < db.index.xb.length := by omega
    have h3 := hcov id.toNat hlt
    rwa [hnat] at h3

/-- The one-vector flat backend of `exFlat1` equipped with an
ontology that covers its only position. -/
def exFlat2 : IndexFlatIP :=
  { ontology := [(PyKey.str "0", { label := "Z" })], ndim := 1, metric := "dotprod"
    index := { d := 1, xb := [[1]] } }

/-- C4 witness: the amended claim at concrete backends whose
ontologies cover their ids, all hypotheses discharged. -/
theorem claim_C4_witness :
    (∃ v, ((7 : Int), v) ∈ exHNSW.index.entries)
    ∧ (ontLookup exHNSW.ontology (PyKey.str (toString (7 : Int)))).isSome
    ∧ (0 ≤ (0 : Int) ∧ (0 : Int) < exFlat2.index.xb.length)
    ∧ (ontLookup exFlat2.ontology (PyKey.str (toString (0 : Int)))).isSome := by
  have h := claim_C4_amended
  have hid7 : (7 : Int) ∈ (exHNSW.search [1] 1).ids := by decide
  have hid0 : (0 : Int) ∈ (exFlat2.search [1] 1).ids := by decide
  have hcov7 : ∀ e ∈ exHNSW.index.entries,
      (ontLookup exHNSW.ontology (PyKey.str (toString e.1))).isSome := by
    intro e he
    fin_cases he
    decide
  have hcov0 : ∀ i : Nat, i < exFlat2.index.xb.length →
      (ontLookup exFlat2.ontology (PyKey.str (toString (i : Int)))).isSome := by
    intro i hi
    have hi1 : i < 1 := hi
    have hz : i = 0 := by omega
    subst hz
    decide
  exact ⟨h.1 exHNSW [1] 1 7 hid7, h.2.1 exHNSW [1] 1 7 hcov7 hid7,
    h.2.2.1 exFlat2 [1] 1 0 (by decide) hid0,
    h.2.2.2 exFlat2 [1] 1 0 (by decide) hcov0 hid0⟩

/-- C5: a fault-free save_pretrained followed by from_pretrained on
the same directory restores a backend carrying the identical native
index, so its search results (ids and distances) for every query and
every k equal those of the pre-save instance exactly — for the flat
variant under the constructor-guaranteed metric. -/
theorem claim_C5 :
    (∀ (db : HNSW) (dir : String) (fs : FS) (q : Vec) (k : Nat),
      ∃ db2 : HNSW,
        HNSW.from_pretrained dir
            (db.save_pretrained Option.none dir SaveFaults.noFaults fs).1 = some db2
        ∧ db2.index = db.index
        ∧ db2.search q k = db.search q k)
    ∧ (∀ (db : IndexFlatIP) (dir : String) (fs : FS) (q : Vec) (k : Nat),
        db.metric = "dotprod" →
        ∃ db2 : IndexFlatIP,
          IndexFlatIP.from_pretrained dir
              (db.save_pretrained Option.none dir SaveFaults.noFaults fs).1 = some db2
          ∧ db2.index = db.index
          ∧ db2.search q k = db.search q k) := by
  constructor
  · intro db dir fs q k
    exact ⟨_, hnsw_roundtrip db dir fs, rfl, rfl⟩
  · intro db dir fs q k hm
    exact ⟨_, flat_roundtrip db dir fs hm, rfl, rfl⟩

/-- C5 witness: the round trip at concrete one-vector backends. -/
theorem claim_C5_witness :
    (∃ db2 : HNSW,
      HNSW.from_pretrained "d"
          (exHNSW.save_pretrained Option.none "d" SaveFaults.noFaults FS.empty).1 = some db2
      ∧ db2.index = exHNSW.index
      ∧ db2.search [1] 1 = exHNSW.search [1] 1)
    ∧ (∃ db2 : IndexFlatIP,
        IndexFlatIP.from_pretrained "d"
            (exFlat1.save_pretrained Option.none "d" SaveFaults.noFaults FS.empty).1 = some db2
        ∧ db2.index = exFlat1.index
        ∧ db2.search [1] 1 = exFlat1.search [1] 1) := by
  exact ⟨claim_C5.1 exHNSW "d" FS.empty [1] 1,
    claim_C5.2 exFlat1 "d" FS.empty [1] 1 rfl⟩

/-- C8: save_pretrained never propagates a failure — every outcome of
the try body, error or not, is turned into a normal return carrying
the partially written filesystem — and the fault-free run returns no
error and writes exactly the three artifacts into the directory,
creating it when absent. -/
theorem claim_C8 :
    (∀ (db : HNSW) (cfg : Option GLiNERDBConfig) (dir : String) (f : SaveFaults) (fs : FS),
      (∃ fs2, db.save_pretrainedBody cfg dir f fs = Except.ok fs2
        ∧ db.save_pretrained cfg dir f fs = (fs2, Option.none))
      ∨ (∃ e fs2, db.save_pretrainedBody cfg dir f fs = Except.error (e, fs2)
        ∧ db.save_pretrained cfg dir f fs = (fs2, some e)))
    ∧ (∀ (db : HNSW) (cfg : Option GLiNERDBConfig) (dir : String) (fs : FS),
        db.save_pretrained cfg dir SaveFaults.noFaults fs =
          ({ dirs := if fs.hasDir dir then fs.dirs else dir :: fs.dirs
             files :=
               (ontologyPath dir, FileContent.ontologyJson (stringifyKeys db.ontology)) ::
               (configPath dir, FileContent.configJson
                 ((cfg.getD { db_type := "HNSW", ndim := db.ndim
                              metric := db.metric }).to_dict)) ::
               (usearchPath dir, FileContent.usearchIndex db.index) :: fs.files },
           Option.none))
    ∧ (∀ (db : IndexFlatIP) (cfg : Option GLiNERDBConfig) (dir : String) (f : SaveFaults)
        (fs : FS),
        (∃ fs2, db.save_pretrainedBody cfg dir f fs = Except.ok fs2
          ∧ db.save_pretrained cfg dir f fs = (fs2, Option.none))
        ∨ (∃ e fs2, db.save_pretrainedBody cfg dir f fs = Except.error (e, fs2)
          ∧ db.save_pretrained cfg dir f fs = (fs2, some e)))
    ∧ (∀ (db : IndexFlatIP) (cfg : Option GLiNERDBConfig) (dir : String) (fs : FS),
        db.save_pretrained cfg dir SaveFaults.noFaults fs =
          ({ dirs := if fs.hasDir dir then fs.dirs else dir :: fs.dirs
             files :=
               (ontologyPath dir, FileContent.ontologyJson (stringifyKeys db.ontology)) ::
               (configPath dir, FileContent.configJson
                 ((cfg.getD { db_type := "HNSWfaiss", ndim := db.ndim
                              metric := db.metric }).to_dict)) ::
               (faissPath dir, FileContent.faissIndex db.index) :: fs.files },
           Option.none)) := by
  refine ⟨?_, hnsw_save_noFaults, ?_, flat_save_noFaults⟩
  · intro db cfg dir f fs
    cases h : db.save_pretrainedBody cfg dir f fs with
    | ok fs2 =>
      exact Or.inl ⟨fs2, rfl, by simp [HNSW.save_pretrained, h]⟩
    | error p =>
      exact Or.inr ⟨p.1, p.2, rfl, by simp [HNSW.save_pretrained, h]⟩
  · intro db cfg dir f fs
    cases h : db.save_pretrainedBody cfg dir f fs with
    | ok fs2 =>
      exact Or.inl ⟨fs2, rfl, by simp [IndexFlatIP.save_pretrained, h]⟩
    | error p =>
      exact Or.inr ⟨p.1, p.2, rfl, by simp [IndexFlatIP.save_pretrained, h]⟩

/-- The scoring loop computes membership of the gold label among the
resolvable labels of the first top_k returned ids: when all of them
resolve, the score is 1 exactly when some returned label matches. -/
theorem spanHit_eq_labels (ont : List (PyKey × OntRecord)) (gold : String) :
    ∀ (top_k : Nat) (ids : List Int) (labs : List String),
      idsLabels ont ids top_k = some labs →
      top_k ≤ ids.length →
      spanHit ont ids gold top_k = some (if gold ∈ labs then 1 else 0) := by
  intro top_k
  induction top_k with
  | zero =>
    intro ids labs hl _
    simp only [idsLabels, List.take_zero, mapOption] at hl
    cases hl
    simp [spanHit, spanHitLoop]
  | succ k ih =>
    intro ids labs hl hlen
    cases ids with
    | nil => simp at hlen
    | cons id rest =>
      simp only [idsLabels, List.take_succ_cons, mapOption] at hl
      cases hfirst : ontLookup ont (PyKey.str (toString id)) with
      | none =>
        rw [hfirst] at hl
        simp at hl
      | some r =>
        rw [hfirst] at hl
        cases hrest : mapOption
            (fun i => (ontLookup ont (PyKey.str (toString i))).map OntRecord.label)
            (rest.take k) with
        | none =>
          rw [hrest] at hl
          simp at hl
        | some ls =>
          rw [hrest] at hl
          simp only [Option.map_some'] at hl
          cases hl
          simp only [spanHit, spanHitLoop, hfirst]
          by_cases hg : r.label = gold
          · simp [hg, List.mem_cons]
          · have hrec := ih rest ls hrest (by simpa using hlen)
            simp only [spanHit] at hrec
            rw [if_neg hg, hrec]
            have hne : ¬ gold = r.label := fun hgg => hg hgg.symm
            simp [List.mem_cons, hne]

/-- Every score the loop can produce is 0 or 1. -/
theorem spanHit_zero_or_one (ont : List (PyKey × OntRecord)) (gold : String) :
    ∀ (top_k : Nat) (ids : List Int) (x : Nat),
      spanHit ont ids gold top_k = some x → x = 0 ∨ x = 1 := by
  intro top_k
  induction top_k with
  | zero =>
    intro ids x hx
    simp only [spanHit, spanHitLoop] at hx
    cases hx
    exact Or.inl rfl
  | succ k ih =>
    intro ids x hx
    cases ids with
    | nil => exact Option.noConfusion hx
    | cons id rest =>
      simp only [spanHit, spanHitLoop] at hx
      cases hfirst : ontLookup ont (PyKey.str (toString id)) with
      | none =>
        simp only [hfirst] at hx
        exact Option.noConfusion hx
      | some r =>
        simp only [hfirst] at hx
        by_cases hg : r.label = gold
        · simp only [if_pos hg, Option.some.injEq] at hx
          exact Or.inr hx.symm
        · simp only [if_neg hg] at hx
          exact ih rest x hx

/-- C9: evaluate_in_context returns the arithmetic mean of the
per-span hit scores — each score 1 exactly when one of the top-k
returned labels equals the gold label, and always 0 or 1 — and an
empty dataset yields accuracy 0 rather than a division fault. -/
theorem claim_C9 :
    (∀ (db : EvalDb) (top_k : Nat), evaluate_in_context db [] top_k = some 0)
    ∧ (∀ (db : EvalDb) (data : List EvalExample) (top_k : Nat) (ss : List (List Nat)),
        mapOption (exampleScores db top_k) data = some ss →
        evaluate_in_context db data top_k =
          some (if ss.flatten = [] then 0
                else ((Nat.cast ss.flatten.sum : ℚ) / (Nat.cast ss.flatten.length : ℚ))))
    ∧ (∀ (ont : List (PyKey × OntRecord)) (ids : List Int) (gold : String)
        (top_k : Nat) (labs : List String),
        idsLabels ont ids top_k = some labs → top_k ≤ ids.length →
        spanHit ont ids gold top_k = some (if gold ∈ labs then 1 else 0))
    ∧ (∀ (ont : List (PyKey × OntRecord)) (ids : List Int) (gold : String)
        (top_k : Nat) (x : Nat),
        spanHit ont ids gold top_k = some x → x = 0 ∨ x = 1) := by
  refine ⟨?_, ?_, ?_, ?_⟩
  · intro db top_k
    rfl
  · intro db data top_k ss hss
    unfold evaluate_in_context
    rw [hss]
    rfl
  · intro ont ids gold top_k labs hl hlen
    exact spanHit_eq_labels ont gold top_k ids labs hl hlen
  · intro ont ids gold top_k x hx
    exact spanHit_zero_or_one ont gold top_k ids x hx

/-- A one-label database and dataset for the evaluator witness. -/
def exEvalDb : EvalDb :=
  { ontology := [(PyKey.str "0", { label := "L" })], searchIds := fun _ _ => [0] }

/-- A dataset of one example with one span whose gold label matches. -/
def exEvalData : List EvalExample :=
  [{ spans := [{ emb := [1], gold := "L" }] }]

/-- C9 witness: the claim applied to an empty dataset and to the
concrete one-span dataset, whose single hit gives accuracy 1. -/
theorem claim_C9_witness :
    evaluate_in_context exEvalDb [] 1 = some 0
    ∧ mapOption (exampleScores exEvalDb 1) exEvalData = some [[1]]
    ∧ evaluate_in_context exEvalDb exEvalData 1 =
        some (if ([[1]] : List (List Nat)).flatten = [] then 0
              else ((Nat.cast ([[1]] : List (List Nat)).flatten.sum : ℚ) /
                    (Nat.cast ([[1]] : List (List Nat)).flatten.length : ℚ)))
    ∧ idsLabels exEvalDb.ontology [0] 1 = some ["L"]
    ∧ (1 : Nat) ≤ ([0] : List Int).length
    ∧ spanHit exEvalDb.ontology [0] "L" 1 = some (if "L" ∈ ["L"] then 1 else 0)
    ∧ ((1 : Nat) = 0 ∨ (1 : Nat) = 1) := by
  have hss : mapOption (exampleScores exEvalDb 1) exEvalData = some [[1]] := by decide
  have hl : idsLabels exEvalDb.ontology [0] 1 = some ["L"] := by decide
  have hlen : (1 : Nat) ≤ ([0] : List Int).length := by decide
  have hone : spanHit exEvalDb.ontology [0] "L" 1 = some 1 := by decide
  exact ⟨claim_C9.1 exEvalDb 1, hss, claim_C9.2.1 exEvalDb exEvalData 1 [[1]] hss,
    hl, hlen, claim_C9.2.2.1 exEvalDb.ontology [0] "L" 1 ["L"] hl hlen,
    claim_C9.2.2.2 exEvalDb.ontology [0] "L" 1 1 hone⟩

/-- A str-keyed lookup on an ontology whose keys are all integers can
never find anything. -/
theorem ontLookup_int_keys (o : List (PyKey × OntRecord))
    (h : ∀ p ∈ o, ∃ j : Int, p.1 = PyKey.int j) (s : String) :
    ontLookup o (PyKey.str s) = Option.none := by
  induction o with
  | nil => rfl
  | cons e rest ih =>
    obtain ⟨j, hj⟩ := h e (by simp)
    have hne : ¬ e.1 = PyKey.str s := by
      rw [hj]
      intro hk
      exact PyKey.noConfusion hk
    simp only [ontLookup, if_neg hne]
    exact ih (fun p hp => h p (by simp [hp]))

/-- The first ontology record whose stringified key equals s; what a
str-keyed lookup can recover from a serialized ontology. -/
def findByKeyStr (o : List (PyKey × OntRecord)) (s : String) : Option OntRecord :=
  match o with
  | [] => Option.none
  | e :: rest => if keyStr e.1 = s then some e.2 else findByKeyStr rest s

/-- A str-keyed lookup on the round-tripped ontology finds exactly the
first entry whose stringified key matches. -/
theorem ontLookup_stringified (o : List (PyKey × OntRecord)) (s : String) :
    ontLookup (ofJsonOntology (stringifyKeys o)) (PyKey.str s) = findByKeyStr o s := by
  induction o with
  | nil => rfl
  | cons e rest ih =>
    simp only [stringifyKeys, ofJsonOntology, List.map_cons, ontLookup, findByKeyStr]
    by_cases hk : keyStr e.1 = s
    · have hpe : PyKey.str (keyStr e.1) = PyKey.str s := by rw [hk]
      rw [if_pos hpe, if_pos hk]
    · have hne : ¬ PyKey.str (keyStr e.1) = PyKey.str s := by
        intro hx
        apply hk
        cases hx
        rfl
      rw [if_neg hne, if_neg hk]
      simpa [stringifyKeys, ofJsonOntology] using ih

/-- C10: a backend restored by from_pretrained carries an ontology
whose keys are all strings (the JSON keys are kept as-is, never turned
back into integers); the public str(id) lookup finds on the restored
ontology exactly the first entry whose stringified key matches, while
on an in-memory integer-keyed ontology (the shape the Evaluator
builds) the same lookup never finds anything until the backend is
round-tripped through save/load. -/
theorem claim_C10 :
    (∀ (db : HNSW) (dir : String) (fs : FS),
      ∃ db2 : HNSW,
        HNSW.from_pretrained dir
            (db.save_pretrained Option.none dir SaveFaults.noFaults fs).1 = some db2
        ∧ db2.ontology = ofJsonOntology (stringifyKeys db.ontology)
        ∧ (∀ p ∈ db2.ontology, ∃ s, p.1 = PyKey.str s)
        ∧ (∀ s : String, ontLookup db2.ontology (PyKey.str s) = findByKeyStr db.ontology s))
    ∧ (∀ o : List (PyKey × OntRecord),
        (∀ p ∈ o, ∃ j : Int, p.1 = PyKey.int j) →
        ∀ s : String, ontLookup o (PyKey.str s) = Option.none)
    ∧ (∀ (o : List (PyKey × OntRecord)) (s : String),
        ontLookup (ofJsonOntology (stringifyKeys o)) (PyKey.str s) = findByKeyStr o s) := by
  refine ⟨?_, ontLookup_int_keys, ontLookup_stringified⟩
  intro db dir fs
  refine ⟨_, hnsw_roundtrip db dir fs, rfl, ?_, ?_⟩
  · intro p hp
    simp only [ofJsonOntology, List.mem_map] at hp
    obtain ⟨e, _, he⟩ := hp
    exact ⟨e.1, by rw [← he]⟩
  · intro s
    exact ontLookup_stringified db.ontology s

/-- An integer-keyed one-entry ontology, the shape the Evaluator
builds in memory. -/
def exIntOntology : List (PyKey × OntRecord) := [(PyKey.int 0, { label := "A" })]

/-- C10 witness: on the concrete integer-keyed ontology the str
lookup finds nothing, while after stringification the same lookup
finds the record. -/
theorem claim_C10_witness :
    ontLookup exIntOntology (PyKey.str "0") = Option.none
    ∧ ontLookup (ofJsonOntology (stringifyKeys exIntOntology)) (PyKey.str "0")
        = some { label := "A" }
    ∧ (∃ db2 : HNSW,
        HNSW.from_pretrained "d"
            (exHNSW.save_pretrained Option.none "d" SaveFaults.noFaults FS.empty).1
          = some db2
        ∧ db2.ontology = ofJsonOntology (stringifyKeys exHNSW.ontology)
        ∧ (∀ p ∈ db2.ontology, ∃ s, p.1 = PyKey.str s)
        ∧ (∀ s : String, ontLookup db2.ontology (PyKey.str s)
            = findByKeyStr exHNSW.ontology s)) := by
  refine ⟨?_, ?_, claim_C10.1 exHNSW "d" FS.empty⟩
  · refine claim_C10.2.1 exIntOntology ?_ "0"
    intro p hp
    fin_cases hp
    exact ⟨0, rfl⟩
  · exact (claim_C10.2.2 exIntOntology "0").trans (by decide)

end GlinerDb
